import Mathlib

/-
Verification of the tidyzoning/zonepy zoning-compliance engine.

Shallow embedding of the Python sources:
  * tidyzoning/check_stories.py       (tri-state range check, fail-open sentinel)
  * tidyzoning/zoning_analysis_pipeline.py (verdict combination loop)
  * tidyzoning/find_bldg_type.py      (building use-type resolution)
  * tidyzoning/add_setbacks.py        (setback_side_sum rule)
  * tidyzoning/get_zoning_req.py      (far computation in zoning_extract)
  * tidyzoning/get_buildable_area.py  (geometry post-processing)
  * tidyzoning/check_footprint.py     (sliding-window rectangle fit)
  * tidyzoning/check_height.py        (optimized height check)
  * zonepy/check_land_use.py          (land-use membership gate)

Python numbers are modelled as rationals; None/NaN/string values that can
appear in bound fields are modelled by an explicit scalar-value type; code
paths that raise in Python are modelled with Option/Except.
-/

/-- Tri-state compliance verdict: Python True / False / "MAYBE". -/
inductive Tri where
  | T
  | F
  | M
deriving DecidableEq, Repr

def triOfBool (b : Bool) : Tri := if b then .T else .F

/-- A scalar Python value as it can appear in a resolved bound field:
a number, a string, Python None, or a float NaN. -/
inductive SVal where
  | num (q : ℚ)
  | str (s : String)
  | pynone
  | nan
deriving DecidableEq, Repr

def svalNum? : SVal → Option ℚ
  | .num q => some q
  | _ => Option.none

/-- A resolved bound: either a scalar or a Python list of scalars
(as read from `min_value` / `max_value` in check_stories.py). -/
inductive Bound where
  | scalar (v : SVal)
  | vlist (vs : List SVal)
deriving DecidableEq, Repr

/-- Two-argument maximum, written out so that it evaluates by kernel
reduction. -/
def qmax (a b : ℚ) : ℚ := if a ≤ b then b else a

/-- Two-argument minimum, written out so that it evaluates by kernel
reduction. -/
def qmin (a b : ℚ) : ℚ := if b ≤ a then b else a

/-- Minimum of a list of rationals (Python `min`, list known non-empty;
0 on the empty list which never occurs after normalisation). -/
def listMin : List ℚ → ℚ
  | [] => 0
  | x :: xs => xs.foldl qmin x

/-- Maximum of a list of rationals (Python `max`). -/
def listMax : List ℚ → ℚ
  | [] => 0
  | x :: xs => xs.foldl qmax x

/-- Normalisation of a bound in check_stories.py lines 63-79: a non-list
value becomes `[default]` when None/NaN/string and `[v]` otherwise; a list
is filtered to its numeric entries, with `[default]` when none remain. -/
def normBound (b : Bound) (default : ℚ) : List ℚ :=
  match b with
  | .scalar (.num q) => [q]
  | .scalar _ => [default]
  | .vlist vs =>
      let ns := vs.filterMap svalNum?
      if ns.isEmpty then [default] else ns

/-- The `unique` reduction of two boolean checks
(check_stories.py lines 86-92 and 99-105). -/
def uniqueVerdict (c1 c2 : Bool) : Tri :=
  if c1 && c2 then .T
  else if !c1 && !c2 then .F
  else .M

/-- Dispatch on the select tag (check_stories.py lines 84-92 / 97-105).
A tag other than "either"/None/"unique" leaves the verdict variable
unassigned in Python (a NameError), modelled as `Option.none`. -/
def selectVerdict (sel : Option String) (c1 c2 : Bool) : Option Tri :=
  if sel = some "either" ∨ sel = Option.none then some (triOfBool (c1 || c2))
  else if sel = some "unique" then some (uniqueVerdict c1 c2)
  else Option.none

/-- Final combination (check_stories.py lines 107-111): MAYBE if either
side is MAYBE, otherwise the boolean AND. -/
def combineTri (a b : Tri) : Tri :=
  if a = .M ∨ b = .M then .M
  else if a = .T ∧ b = .T then .T
  else .F

/-- One resolved `stories` constraint row as check_stories.py reads it. -/
structure StoriesConstraint where
  min_value : Bound
  max_value : Bound
  min_select : Option String
  max_select : Option String
  constraint_min_note : Option String
  constraint_max_note : Option String
deriving DecidableEq, Repr

/-- The verdict record appended for one zoning row. -/
structure CheckResult where
  allowed : Tri
  constraint_min_note : Option String
  constraint_max_note : Option String
deriving DecidableEq, Repr

/-- check_stories.py lines 58-113 for one constraint row: the OZFS Error
sentinel short-circuits to allowed, otherwise both bounds are normalised
and the min/max side verdicts are combined. -/
def checkStoriesRow (stories : ℚ) (c : StoriesConstraint) : Option CheckResult :=
  if c.min_select = some "OZFS Error" ∨ c.max_select = some "OZFS Error" then
    some ⟨.T, c.constraint_min_note, c.constraint_max_note⟩
  else
    let mins := normBound c.min_value 0
    let maxs := normBound c.max_value 1000000
    match selectVerdict c.min_select (decide (listMin mins ≤ stories)) (decide (listMax mins ≤ stories)),
          selectVerdict c.max_select (decide (stories ≤ listMin maxs)) (decide (stories ≤ listMax maxs)) with
    | some mi, some ma => some ⟨combineTri mi ma, c.constraint_min_note, c.constraint_max_note⟩
    | _, _ => Option.none

/-! Pipeline verdict combination (zoning_analysis_pipeline.py lines 156-178). -/

/-- The check loop of `process_allowed_parcel`: walk the check sequence,
stop at the first False (recording its name), accumulate the names of
MAYBE checks. Returns (false_reason, maybe_checks). -/
def runCheckLoop : List (String × Tri) → List String → Option String × List String
  | [], maybes => (Option.none, maybes)
  | (name, .F) :: _, maybes => (some name, maybes)
  | (name, .M) :: rest, maybes => runCheckLoop rest (maybes ++ [name])
  | (_, .T) :: rest, maybes => runCheckLoop rest maybes

/-- Final allowed status and reason (zoning_analysis_pipeline.py
lines 169-178). -/
def finalAllowed (checks : List (String × Tri)) : Tri × String :=
  match runCheckLoop checks [] with
  | (some name, _) => (.F, name)
  | (Option.none, []) => (.T, "Our tidybuilding is allowed")
  | (Option.none, ms) => (.M, String.intercalate ", " ms)

/-! Setback side-sum rule (add_setbacks.py lines 87-108). -/

/-- One labelled parcel edge with its (numeric) assigned setback. -/
structure Side where
  side : String
  setback : ℚ
deriving DecidableEq, Repr

/-- Indices (in order) of the edges carrying a given side label. -/
def idxsWithSide (s : String) (sides : List Side) : List ℕ :=
  (sides.enum.filter (fun p => p.2.side = s)).map Prod.fst

/-- Edge-pair choice of add_setbacks.py lines 90-102: prefer one exterior
plus one interior edge, else the first two interior, else the first two
exterior edges; otherwise the rule is skipped. -/
def choosePair (sides : List Side) : Option (ℕ × ℕ) :=
  let intIdx := idxsWithSide "Interior side" sides
  let extIdx := idxsWithSide "Exterior side" sides
  if 1 ≤ intIdx.length ∧ 1 ≤ extIdx.length then
    some (extIdx.getD 0 0, intIdx.getD 0 0)
  else if 2 ≤ intIdx.length then
    some (intIdx.getD 0 0, intIdx.getD 1 0)
  else if 2 ≤ extIdx.length then
    some (extIdx.getD 0 0, extIdx.getD 1 0)
  else
    Option.none

def defaultSide : Side := ⟨"", 0⟩

/-- The shortfall `extra = max(0, side_sum - (v_ext + v_int))`
(add_setbacks.py line 105) for a chosen index pair. -/
def sideSumExtra (sideSum : ℚ) (sides : List Side) (iExt iInt : ℕ) : ℚ :=
  qmax 0 (sideSum - ((sides.getD iExt defaultSide).setback + (sides.getD iInt defaultSide).setback))

/-- add_setbacks.py lines 88-108: when a pair of side edges can be chosen,
the shortfall is added to the setback of every "Interior side" row
(`sides.loc[int_mask, "setback"] += extra`); otherwise nothing changes. -/
def applySideSum (sideSum : ℚ) (sides : List Side) : List Side :=
  match choosePair sides with
  | Option.none => sides
  | some (iExt, iInt) =>
      let extra := sideSumExtra sideSum sides iExt iInt
      sides.map (fun e =>
        if e.side = "Interior side" then { e with setback := e.setback + extra } else e)

/-! Floor-area-ratio computation (get_zoning_req.py, zoning_extract line 92). -/

/-- Plain-Python division: raises ZeroDivisionError on a zero divisor. -/
def pyDiv (a b : ℚ) : Except String ℚ :=
  if b = 0 then .error "ZeroDivisionError" else .ok (a / b)

/-- `far = fl_area / lot_area if lot_area is not None else None`:
the guard tests only for None, so a present-but-zero lot area divides by
zero, and a missing floor area with a present lot area is `None / number`
(a TypeError). -/
def farOf (flArea lotArea : Option ℚ) : Except String (Option ℚ) :=
  match lotArea with
  | Option.none => .ok Option.none
  | some a =>
      match flArea with
      | Option.none => .error "TypeError"
      | some f => (pyDiv f a).map some

/-! Buildable-area post-processing (get_buildable_area.py lines 141-178). -/

/-- A polygonal geometry, abstracted to a validity flag and the list of
areas of its polygon parts. Empty geometry = no parts; MultiPolygon =
more than one part. -/
structure Geom where
  valid : Bool
  parts : List ℚ
deriving DecidableEq, Repr

def geomIsEmpty (g : Geom) : Bool := g.parts.isEmpty

/-- Per-geometry post-processing (get_buildable_area.py lines 142-155):
repair an invalid geometry with `make_valid` (abstracted as `mv`), map an
empty geometry to None, keep only the largest part of a MultiPolygon. -/
def fixGeom (mv : Geom → Geom) (g0 : Geom) : Option Geom :=
  let g := if g0.valid then g0 else mv g0
  if g.parts.isEmpty then Option.none
  else if 1 < g.parts.length then some ⟨g.valid, [listMax g.parts]⟩
  else some g

/-- A buildable-area output cell: a geometry, or the "error" marker
written when even the fallback parcel polygon is empty. -/
inductive BuildableOut where
  | geom (g : Geom)
  | errMark
deriving DecidableEq, Repr

/-- The relaxable/strict pair with the fallback of get_buildable_area.py
lines 158-171: a None side is replaced by the other side, both-None falls
back to the whole parcel polygon, and an empty parcel yields "error". -/
def buildablePair (mv : Geom → Geom) (parcel gmin gmax : Geom) :
    BuildableOut × BuildableOut :=
  match fixGeom mv gmin, fixGeom mv gmax with
  | Option.none, some g => (.geom g, .geom g)
  | some g, Option.none => (.geom g, .geom g)
  | some a, some b => (.geom a, .geom b)
  | Option.none, Option.none =>
      if parcel.parts.isEmpty then (.errMark, .errMark)
      else (.geom parcel, .geom parcel)

/-! Sliding-window rectangle fit (check_footprint.py lines 13-28). -/

def maskRows (mask : List (List Bool)) : ℕ := mask.length

def maskCols (mask : List (List Bool)) : ℕ := (mask.headD []).length

def maskGet (mask : List (List Bool)) (x y : ℕ) : Bool :=
  (mask.getD x []).getD y false

/-- `np.all(mask[x:x+w, y:y+d])` for an in-bounds window. -/
def rectAll (mask : List (List Bool)) (x y w d : ℕ) : Bool :=
  (List.range w).all fun i => (List.range d).all fun j => maskGet mask (x + i) (y + j)

/-- check_footprint.py `fits`: scan every anchor cell that is inside the
polygon and test the width×depth window and the depth×width window. -/
def fits (mask : List (List Bool)) (width depth : ℕ) : Bool :=
  (List.range (maskRows mask)).any fun x =>
    (List.range (maskCols mask)).any fun y =>
      maskGet mask x y &&
        ((decide (x + width ≤ maskRows mask) && decide (y + depth ≤ maskCols mask)
            && rectAll mask x y width depth) ||
         (decide (x + depth ≤ maskRows mask) && decide (y + width ≤ maskCols mask)
            && rectAll mask x y depth width))

/-! Optimized height check (check_height.py lines 140-217). -/

/-- An element of a height bound list: a scalar, or a nested list
(which `_clean` extends raw and numpy then coerces to float; we model
the numeric case of a nested list). -/
inductive HVal where
  | s (v : SVal)
  | l (qs : List ℚ)
deriving DecidableEq, Repr

/-- A raw `min_value`/`max_value` field as check_height.py reads it. -/
inductive HBound where
  | scalar (v : SVal)
  | blist (vs : List HVal)
deriving DecidableEq, Repr

/-- Python truthiness of a bound value, for `row.min_value or []`:
None, 0, "" and the empty list are falsy; NaN is truthy. -/
def hFalsy : HBound → Bool
  | .scalar (.num q) => decide (q = 0)
  | .scalar (.str s) => decide (s = "")
  | .scalar .pynone => true
  | .scalar .nan => false
  | .blist vs => vs.isEmpty

/-- `_clean` in check_height.py lines 166-173 applied after the
`or []` coercion: flatten one level of nesting, keep numeric scalars,
fall back to `[default]` when nothing remains. -/
def cleanH (b : HBound) (default : ℚ) : List ℚ :=
  let vals := if hFalsy b then HBound.blist [] else b
  let flat :=
    match vals with
    | .scalar v => (svalNum? v).toList
    | .blist vs => vs.flatMap fun hv =>
        match hv with
        | .l qs => qs
        | .s v => (svalNum? v).toList
  if flat.isEmpty then [default] else flat

/-- `row.min_select or "either"` (an empty-string tag is also falsy). -/
def selOr (o : Option String) (d : String) : String :=
  match o with
  | some s => if s = "" then d else s
  | Option.none => d

/-- The allowed value computed by check_height.py lines 162-210: the
bounds are cleaned, scaled to feet by the unit factor, compared against
the building height, and any failure is reported as MAYBE (with the
OZFS Error sentinel short-circuiting to True). -/
def checkHeightAllowed (minB maxB : HBound) (selMin selMax : Option String)
    (factor h : ℚ) : Tri :=
  let minFt := (cleanH minB 0).map (· * factor)
  let maxFt := (cleanH maxB 1000000).map (· * factor)
  let sMin := selOr selMin "either"
  let sMax := selOr selMax "either"
  let minOk :=
    if sMin = "unique" then decide (listMax minFt ≤ h) && decide (listMin minFt ≤ h)
    else decide (listMin minFt ≤ h) || decide (listMax minFt ≤ h)
  let maxOk :=
    if sMax = "unique" then decide (h ≤ listMin maxFt) && decide (h ≤ listMax maxFt)
    else decide (h ≤ listMin maxFt) || decide (h ≤ listMax maxFt)
  if sMin = "OZFS Error" ∨ sMax = "OZFS Error" then .T
  else if !minOk || !maxOk then .M
  else .T

/-- check_height.py with the no-height-row early return (lines 150-158):
when no `height` constraint row exists the verdict row carries True. -/
def checkHeightRowAllowed
    (hr : Option (HBound × HBound × Option String × Option String))
    (factor h : ℚ) : Tri :=
  match hr with
  | Option.none => .T
  | some (mn, mx, sm, sx) => checkHeightAllowed mn mx sm sx factor h

/-! Building use-type resolution (tidyzoning/find_bldg_type.py and
zonepy/find_bldg_type.py) and the land-use gate (zonepy/check_land_use.py). -/

/-- A building record: the optional explicit `type` column and the
bedroom-count unit columns. -/
structure TBuilding where
  type? : Option String
  units_0bed : ℕ
  units_1bed : ℕ
  units_2bed : ℕ
  units_3bed : ℕ
  units_4bed : ℕ
deriving DecidableEq, Repr

/-- The live `find_bldg_type` (tidyzoning/find_bldg_type.py lines 38-51,
identical in zonepy): the `type` column when present, else "other". -/
def find_bldg_type (b : TBuilding) : String :=
  match b.type? with
  | some t => t
  | Option.none => "other"

/-- The bedroom-count classification described by the spec (the
commented-out variant at the top of find_bldg_type.py): sum the unit
columns into the 1/2/3/"4-plus"-family tags. Stated here only to compare
against the live code. -/
def bldgTypeByUnits (b : TBuilding) : String :=
  let s := b.units_0bed + b.units_1bed + b.units_2bed + b.units_3bed + b.units_4bed
  if s = 1 then "1_family"
  else if s = 2 then "2_family"
  else if s = 3 then "3_family"
  else if 3 < s then "4_family"
  else "other"

/-- The zoning-row fields read by `check_land_use_single`:
`dist_info.get("uses_permitted", {}).get("uses_value", [])`, where
`Option.none` models a missing key on either level. -/
structure DistInfo where
  uses_value : Option (List String)
deriving DecidableEq, Repr

/-- zonepy/check_land_use.py lines 18-30: False for the "other" use-type,
False for an empty permitted list, else list membership. -/
def check_land_use_single (d : DistInfo) (bldgType : String) : Bool :=
  let usesValue := d.uses_value.getD []
  if bldgType = "other" then false
  else if usesValue.isEmpty then false
  else usesValue.contains bldgType

/-! Shared helper lemmas. -/

lemma listAnyCongr {α : Type} (l : List α) (f g : α → Bool)
    (h : ∀ a ∈ l, f a = g a) : l.any f = l.any g := by
  induction l with
  | nil => rfl
  | cons x xs ih =>
      simp only [List.any_cons, h x (by simp)]
      rw [ih (fun a ha => h a (by simp [ha]))]

/-! Claim theorems. -/

/-- Claim C2: a resolved constraint whose min_select or max_select is the
"OZFS Error" sentinel makes the range check return True with the
constraint notes carried through, regardless of the bound values and the
building value (fail-open, no exception). -/
theorem checkStories_ozfs_fail_open (stories : ℚ) (c : StoriesConstraint)
    (h : c.min_select = some "OZFS Error" ∨ c.max_select = some "OZFS Error") :
    checkStoriesRow stories c =
      some ⟨Tri.T, c.constraint_min_note, c.constraint_max_note⟩ := by
  unfold checkStoriesRow
  rw [if_pos h]

theorem checkStories_ozfs_fail_open_witness :
    checkStoriesRow 3
      ⟨Bound.scalar (SVal.num 100), Bound.scalar (SVal.num 0),
       some "OZFS Error", some "unique", some "m1", some "m2"⟩ =
      some ⟨Tri.T, some "m1", some "m2"⟩ :=
  checkStories_ozfs_fail_open 3 _ (Or.inl rfl)

/-- Claim C6: the code computes `far = fl_area / lot_area` whenever
`lot_area is not None`, with no nonzero guard, so a parcel whose lot area
is present but zero reaches a division by zero instead of yielding a null
far. -/
theorem far_zero_lot_area_divzero :
    farOf (some 1000) (some 0) = Except.error "ZeroDivisionError" ∧
    farOf (some 1000) Option.none = Except.ok Option.none := by
  constructor <;> rfl

/-- Claim C9: the optimized check_height maps every bound violation to
"MAYBE" (and the sentinel or no-constraint cases to True), so its allowed
value is never False. -/
theorem checkHeight_never_false
    (hr : Option (HBound × HBound × Option String × Option String))
    (factor h : ℚ) :
    checkHeightRowAllowed hr factor h = Tri.T ∨
    checkHeightRowAllowed hr factor h = Tri.M := by
  cases hr with
  | none => exact Or.inl rfl
  | some p =>
      obtain ⟨mn, mx, sm, sx⟩ := p
      simp only [checkHeightRowAllowed, checkHeightAllowed]
      split_ifs <;> simp

/-- Claim C4 counterexample: a building with no `type` column whose unit
columns sum to 2 is classified "other" by the live `find_bldg_type`,
not "2_family" as the bedroom-count classification would give. -/
theorem find_bldg_type_no_units_classification_cex :
    find_bldg_type ⟨Option.none, 0, 0, 2, 0, 0⟩ = "other" ∧
    bldgTypeByUnits ⟨Option.none, 0, 0, 2, 0, 0⟩ = "2_family" ∧
    ("other" : String) ≠ "2_family" :=
  ⟨rfl, rfl, by decide⟩

/-- Claim C4 (amended): the use-type is the explicit `type` field when
present and "other" whenever it is absent; the bedroom-count unit columns
are never consulted. -/
theorem find_bldg_type_amended (b : TBuilding) :
    find_bldg_type b = find_bldg_type ⟨b.type?, 0, 0, 0, 0, 0⟩ ∧
    (b.type? = Option.none → find_bldg_type b = "other") ∧
    (∀ t, b.type? = some t → find_bldg_type b = t) := by
  obtain ⟨ty, u0, u1, u2, u3, u4⟩ := b
  cases ty <;> simp [find_bldg_type]

theorem find_bldg_type_amended_witness :
    find_bldg_type ⟨Option.none, 5, 0, 0, 0, 0⟩ = "other" :=
  (find_bldg_type_amended ⟨Option.none, 5, 0, 0, 0, 0⟩).2.1 rfl

/-- Claim C8: the sliding-window fit test is orientation-swap invariant:
a width×depth rectangle fits iff the depth×width rectangle fits, because
both orientations are tested at every anchor cell. -/
theorem fits_swap (mask : List (List Bool)) (w d : ℕ) :
    fits mask w d = fits mask d w := by
  unfold fits
  refine listAnyCongr _ _ _ (fun x _ => ?_)
  refine listAnyCongr _ _ _ (fun y _ => ?_)
  rw [Bool.or_comm]

/-- Claim C10: check_land_use_single returns False whenever the use-type
is "other" (e.g. a building with no `type` column) or the permitted-uses
list is empty, regardless of the list contents; otherwise it returns
exactly list membership. -/
theorem check_land_use_single_spec (d : DistInfo) (t : String) :
    check_land_use_single d "other" = false ∧
    (d.uses_value.getD [] = [] → check_land_use_single d t = false) ∧
    (t ≠ "other" → d.uses_value.getD [] ≠ [] →
      (check_land_use_single d t = true ↔ t ∈ d.uses_value.getD [])) ∧
    check_land_use_single d (find_bldg_type ⟨Option.none, 0, 0, 0, 0, 0⟩) = false := by
  refine ⟨by simp [check_land_use_single], ?_, ?_, by simp [check_land_use_single, find_bldg_type]⟩
  · intro h
    simp [check_land_use_single, h]
  · intro h1 h2
    simp [check_land_use_single, h1, h2, List.isEmpty_iff]

theorem check_land_use_single_spec_witness :
    check_land_use_single ⟨some ["1_family", "2_family"]⟩ "2_family" = true :=
  ((check_land_use_single_spec ⟨some ["1_family", "2_family"]⟩ "2_family").2.2.1
    (by decide) (by decide)).mpr (by decide)

/-- Claim C5 counterexample: with two Interior-side edges (setback 5 each)
and a required side sum of 20, the shortfall of 10 is added to BOTH chosen
edges, so the first chosen edge's setback does not stay unchanged. -/
theorem applySideSum_first_edge_changed_cex :
    choosePair [⟨"Interior side", 5⟩, ⟨"Interior side", 5⟩] = some (0, 1) ∧
    applySideSum 20 [⟨"Interior side", 5⟩, ⟨"Interior side", 5⟩] =
      [⟨"Interior side", 15⟩, ⟨"Interior side", 15⟩] ∧
    ((applySideSum 20 [⟨"Interior side", 5⟩, ⟨"Interior side", 5⟩]).getD 0 defaultSide).setback ≠
      (([⟨"Interior side", 5⟩, ⟨"Interior side", 5⟩] : List Side).getD 0 defaultSide).setback := by
  have hres : applySideSum 20 [⟨"Interior side", 5⟩, ⟨"Interior side", 5⟩] =
      [⟨"Interior side", 15⟩, ⟨"Interior side", 15⟩] := by
    have hcp : choosePair [⟨"Interior side", 5⟩, ⟨"Interior side", 5⟩] = some (0, 1) := rfl
    unfold applySideSum
    rw [hcp]
    have hex : sideSumExtra 20 [⟨"Interior side", 5⟩, ⟨"Interior side", 5⟩] 0 1 = 10 := by
      norm_num [sideSumExtra, defaultSide, qmax]
    simp only [hex, List.map]
    norm_num
  refine ⟨rfl, hres, ?_⟩
  rw [hres]
  norm_num [defaultSide]

/-- Claim C5 (amended): when a pair of side edges is chosen, the shortfall
max(0, required − (first + second)) is added to the setback of every
Interior-side edge — so the first chosen edge is also topped up when both
chosen edges are interior, and no edge changes when both are exterior —
while every non-interior edge keeps its setback. -/
theorem applySideSum_interior_topup (sideSum : ℚ) (sides : List Side)
    (iExt iInt : ℕ) (h : choosePair sides = some (iExt, iInt)) :
    (applySideSum sideSum sides).length = sides.length ∧
    ∀ k, k < sides.length →
      ((applySideSum sideSum sides).getD k defaultSide).side =
        (sides.getD k defaultSide).side ∧
      ((applySideSum sideSum sides).getD k defaultSide).setback =
        (sides.getD k defaultSide).setback +
          (if (sides.getD k defaultSide).side = "Interior side"
           then sideSumExtra sideSum sides iExt iInt else 0) := by
  unfold applySideSum
  rw [h]
  refine ⟨by simp, fun k hk => ?_⟩
  rw [List.getD_eq_getElem _ _ (by simpa using hk), List.getD_eq_getElem _ _ hk]
  rw [List.getElem_map]
  by_cases hs : sides[k].side = "Interior side" <;> simp [hs]

theorem applySideSum_interior_topup_witness :
    ((applySideSum 20 [⟨"Exterior side", 5⟩, ⟨"Interior side", 5⟩]).getD 1 defaultSide).setback =
      (([⟨"Exterior side", 5⟩, ⟨"Interior side", 5⟩] : List Side).getD 1 defaultSide).setback +
        (if (([⟨"Exterior side", 5⟩, ⟨"Interior side", 5⟩] : List Side).getD 1 defaultSide).side =
            "Interior side"
         then sideSumExtra 20 [⟨"Exterior side", 5⟩, ⟨"Interior side", 5⟩] 0 1 else 0) :=
  ((applySideSum_interior_topup 20 [⟨"Exterior side", 5⟩, ⟨"Interior side", 5⟩] 0 1 rfl).2
    1 (by decide)).2

/-- Claim C7 counterexample: a parcel with both difference geometries
empty does not keep "no buildable area" in the output — the fallback of
get_buildable_area.py lines 158-171 replaces it with the full parcel
polygon. -/
theorem buildable_empty_not_preserved_cex :
    geomIsEmpty ⟨true, []⟩ = true ∧
    buildablePair id ⟨true, [100]⟩ ⟨true, []⟩ ⟨true, []⟩ =
      (BuildableOut.geom ⟨true, [100]⟩, BuildableOut.geom ⟨true, [100]⟩) ∧
    (⟨true, [100]⟩ : Geom).parts ≠ [] :=
  ⟨rfl, rfl, by simp⟩

/-- Claim C7 (amended): an invalid difference geometry is repaired with
make_valid and processed like a valid one; a multi-part result keeps only
its largest part; an empty result is marked null internally, but in the
returned pair a null side is replaced by the other side's geometry, a
doubly-null pair falls back to the whole parcel polygon, and only an
empty parcel yields the "error" marker — so "no buildable area" is not
preserved in the output. -/
theorem buildablePair_amended (mv : Geom → Geom) (parcel g1 g2 : Geom) :
    (∀ g : Geom, g.valid = false → fixGeom mv g = fixGeom id (mv g)) ∧
    (∀ g : Geom, g.valid = true → 1 < g.parts.length →
      fixGeom mv g = some ⟨true, [listMax g.parts]⟩) ∧
    (∀ g : Geom, (fixGeom mv g = Option.none ↔
      (if g.valid then g else mv g).parts = [])) ∧
    (∀ a : Geom, fixGeom mv g1 = Option.none → fixGeom mv g2 = some a →
      buildablePair mv parcel g1 g2 = (.geom a, .geom a)) ∧
    (∀ b : Geom, fixGeom mv g1 = some b → fixGeom mv g2 = Option.none →
      buildablePair mv parcel g1 g2 = (.geom b, .geom b)) ∧
    (fixGeom mv g1 = Option.none → fixGeom mv g2 = Option.none →
      parcel.parts ≠ [] →
      buildablePair mv parcel g1 g2 = (.geom parcel, .geom parcel)) ∧
    (fixGeom mv g1 = Option.none → fixGeom mv g2 = Option.none →
      parcel.parts = [] →
      buildablePair mv parcel g1 g2 = (.errMark, .errMark)) := by
  refine ⟨?_, ?_, ?_, ?_, ?_, ?_, ?_⟩
  · intro g hg
    simp only [fixGeom, hg, Bool.false_eq_true, if_false, id]
    cases hv : (mv g).valid <;> simp [hv]
  · intro g hg hlen
    have hne : ¬ g.parts.isEmpty = true := by
      simp only [List.isEmpty_iff]
      exact List.length_pos.mp (by omega)
    simp [fixGeom, hg, hne, hlen]
  · intro g
    cases hv : g.valid <;>
      simp only [fixGeom, hv, Bool.false_eq_true, if_false, if_true] <;>
      constructor <;> intro h
    · by_cases he : (mv g).parts.isEmpty
      · simpa [List.isEmpty_iff] using he
      · rw [if_neg he] at h
        split at h <;> simp at h
    · simp [List.isEmpty_iff, h]
    · by_cases he : g.parts.isEmpty
      · simpa [List.isEmpty_iff] using he
      · rw [if_neg he] at h
        split at h <;> simp at h
    · simp [List.isEmpty_iff, h]
  · intro a h1 h2
    simp only [buildablePair, h1, h2]
  · intro b h1 h2
    simp only [buildablePair, h1, h2]
  · intro h1 h2 hp
    simp only [buildablePair, h1, h2]
    rw [if_neg (by simpa [List.isEmpty_iff] using hp)]
  · intro h1 h2 hp
    simp only [buildablePair, h1, h2]
    rw [if_pos (by simpa [List.isEmpty_iff] using hp)]

theorem buildablePair_amended_witness :
    buildablePair id ⟨true, []⟩ ⟨false, []⟩ ⟨true, []⟩ =
      (BuildableOut.errMark, BuildableOut.errMark) :=
  (buildablePair_amended id ⟨true, []⟩ ⟨false, []⟩ ⟨true, []⟩).2.2.2.2.2.2 rfl rfl rfl

lemma runCheckLoop_isSome_iff (l : List (String × Tri)) (acc : List String) :
    (runCheckLoop l acc).1.isSome = true ↔ Tri.F ∈ l.map Prod.snd := by
  induction l generalizing acc with
  | nil => simp [runCheckLoop]
  | cons p rest ih =>
      obtain ⟨n, t⟩ := p
      cases t <;> simp [runCheckLoop, ih]

lemma runCheckLoop_no_false (l : List (String × Tri)) (acc : List String)
    (h : Tri.F ∉ l.map Prod.snd) :
    runCheckLoop l acc =
      (Option.none, acc ++ (l.filter (fun p => decide (p.2 = Tri.M))).map Prod.fst) := by
  induction l generalizing acc with
  | nil => simp [runCheckLoop]
  | cons p rest ih =>
      obtain ⟨n, t⟩ := p
      simp only [List.map_cons, List.mem_cons] at h
      push_neg at h
      cases t with
      | F => exact absurd rfl (Ne.symm h.1)
      | M => simp [runCheckLoop, ih _ h.2, List.filter_cons]
      | T => simp [runCheckLoop, ih _ h.2, List.filter_cons]

lemma runCheckLoop_stop_suffix (pre : List (String × Tri)) (nm : String)
    (rest rest' : List (String × Tri)) (acc : List String) :
    runCheckLoop (pre ++ (nm, Tri.F) :: rest) acc =
      runCheckLoop (pre ++ (nm, Tri.F) :: rest') acc := by
  induction pre generalizing acc with
  | nil => rfl
  | cons p ps ih =>
      obtain ⟨n, t⟩ := p
      cases t <;> simp [runCheckLoop, ih]

lemma filtered_maybe_nil_iff (l : List (String × Tri)) :
    (l.filter (fun p => decide (p.2 = Tri.M))).map Prod.fst = [] ↔
      Tri.M ∉ l.map Prod.snd := by
  induction l with
  | nil => simp
  | cons p rest ih =>
      obtain ⟨n, t⟩ := p
      cases t <;> simp [List.filter_cons, ih]

/-- Claim C3: combining per-check verdicts in `process_allowed_parcel`
obeys the dominance ordering False > MAYBE > True: any False makes the
overall verdict False (and the checks after the first False are never
consulted), otherwise any MAYBE makes it MAYBE, otherwise it is True. -/
theorem pipeline_verdict_dominance (checks : List (String × Tri)) :
    ((finalAllowed checks).1 = Tri.F ↔ Tri.F ∈ checks.map Prod.snd) ∧
    ((finalAllowed checks).1 = Tri.M ↔
      (Tri.F ∉ checks.map Prod.snd ∧ Tri.M ∈ checks.map Prod.snd)) ∧
    ((finalAllowed checks).1 = Tri.T ↔
      (Tri.F ∉ checks.map Prod.snd ∧ Tri.M ∉ checks.map Prod.snd)) ∧
    (∀ (pre : List (String × Tri)) (nm : String) (rest rest' : List (String × Tri)),
      finalAllowed (pre ++ (nm, Tri.F) :: rest) =
        finalAllowed (pre ++ (nm, Tri.F) :: rest')) := by
  refine ⟨?_, ?_, ?_, ?_⟩
  · by_cases hF : Tri.F ∈ checks.map Prod.snd
    · obtain ⟨nm, hnm⟩ := Option.isSome_iff_exists.mp ((runCheckLoop_isSome_iff checks []).mpr hF)
      simp only [finalAllowed]
      rw [show runCheckLoop checks [] = (some nm, (runCheckLoop checks []).2) from
        Prod.ext hnm rfl]
      simp [hF]
    · rw [finalAllowed, runCheckLoop_no_false checks [] hF]
      rcases hml : (checks.filter (fun p => decide (p.2 = Tri.M))).map Prod.fst with _ | ⟨m, ms⟩ <;>
        simp [hml, hF]
  · by_cases hF : Tri.F ∈ checks.map Prod.snd
    · obtain ⟨nm, hnm⟩ := Option.isSome_iff_exists.mp ((runCheckLoop_isSome_iff checks []).mpr hF)
      simp only [finalAllowed]
      rw [show runCheckLoop checks [] = (some nm, (runCheckLoop checks []).2) from
        Prod.ext hnm rfl]
      simp [hF]
    · rw [finalAllowed, runCheckLoop_no_false checks [] hF]
      rcases hml : (checks.filter (fun p => decide (p.2 = Tri.M))).map Prod.fst with _ | ⟨m, ms⟩
      · have := (filtered_maybe_nil_iff checks).mp hml
        simp [hml, hF, this]
      · have : Tri.M ∈ checks.map Prod.snd := by
          by_contra hM
          rw [(filtered_maybe_nil_iff checks).mpr hM] at hml
          exact List.cons_ne_nil m ms hml.symm
        simp [hml, hF, this]
  · by_cases hF : Tri.F ∈ checks.map Prod.snd
    · obtain ⟨nm, hnm⟩ := Option.isSome_iff_exists.mp ((runCheckLoop_isSome_iff checks []).mpr hF)
      simp only [finalAllowed]
      rw [show runCheckLoop checks [] = (some nm, (runCheckLoop checks []).2) from
        Prod.ext hnm rfl]
      simp [hF]
    · rw [finalAllowed, runCheckLoop_no_false checks [] hF]
      rcases hml : (checks.filter (fun p => decide (p.2 = Tri.M))).map Prod.fst with _ | ⟨m, ms⟩
      · have := (filtered_maybe_nil_iff checks).mp hml
        simp [hml, hF, this]
      · have : Tri.M ∈ checks.map Prod.snd := by
          by_contra hM
          rw [(filtered_maybe_nil_iff checks).mpr hM] at hml
          exact List.cons_ne_nil m ms hml.symm
        simp [hml, hF, this]
  · intro pre nm rest rest'
    unfold finalAllowed
    rw [runCheckLoop_stop_suffix pre nm rest rest']

theorem pipeline_verdict_dominance_witness :
    (finalAllowed [("check_height", Tri.T), ("check_stories", Tri.M)]).1 = Tri.M :=
  ((pipeline_verdict_dominance [("check_height", Tri.T), ("check_stories", Tri.M)]).2.1).mpr
    ⟨by decide, by decide⟩

/-- Claim C1: for a constraint with min_select = max_select = "unique",
the range check returns True iff the value satisfies both extreme min
bounds and both extreme max bounds; False iff on some side both extreme
comparisons fail while on no side the two extreme comparisons disagree;
and MAYBE otherwise. -/
theorem checkStories_unique_tristate (stories : ℚ) (c : StoriesConstraint)
    (hmin : c.min_select = some "unique") (hmax : c.max_select = some "unique")
    (mins maxs : List ℚ)
    (hm : mins = normBound c.min_value 0)
    (hx : maxs = normBound c.max_value 1000000) :
    ∃ r : CheckResult, checkStoriesRow stories c = some r ∧
      (r.allowed = Tri.T ↔
        (listMin mins ≤ stories ∧ listMax mins ≤ stories ∧
         stories ≤ listMin maxs ∧ stories ≤ listMax maxs)) ∧
      (r.allowed = Tri.F ↔
        (((¬ listMin mins ≤ stories ∧ ¬ listMax mins ≤ stories) ∨
          (¬ stories ≤ listMin maxs ∧ ¬ stories ≤ listMax maxs)) ∧
         ((listMin mins ≤ stories) ↔ (listMax mins ≤ stories)) ∧
         ((stories ≤ listMin maxs) ↔ (stories ≤ listMax maxs)))) ∧
      (r.allowed = Tri.M ↔
        (¬ (listMin mins ≤ stories ∧ listMax mins ≤ stories ∧
            stories ≤ listMin maxs ∧ stories ≤ listMax maxs) ∧
         ¬ (((¬ listMin mins ≤ stories ∧ ¬ listMax mins ≤ stories) ∨
             (¬ stories ≤ listMin maxs ∧ ¬ stories ≤ listMax maxs)) ∧
            ((listMin mins ≤ stories) ↔ (listMax mins ≤ stories)) ∧
            ((stories ≤ listMin maxs) ↔ (stories ≤ listMax maxs))))) := by
  subst hm hx
  simp only [checkStoriesRow, hmin, hmax]
  by_cases h1 : listMin (normBound c.min_value 0) ≤ stories <;>
    by_cases h2 : listMax (normBound c.min_value 0) ≤ stories <;>
      by_cases h3 : stories ≤ listMin (normBound c.max_value 1000000) <;>
        by_cases h4 : stories ≤ listMax (normBound c.max_value 1000000) <;>
          refine ⟨_, rfl, ?_, ?_, ?_⟩ <;>
            simp [selectVerdict, uniqueVerdict, combineTri, triOfBool, h1, h2, h3, h4]

theorem checkStories_unique_tristate_witness :
    ∃ r : CheckResult, checkStoriesRow 4
      ⟨Bound.scalar (SVal.num 1), Bound.vlist [SVal.num 3, SVal.num 5],
       some "unique", some "unique", some "n1", some "n2"⟩ = some r ∧
      r.allowed = Tri.M := by
  obtain ⟨r, hr, hT, hF, hM⟩ := checkStories_unique_tristate 4
    ⟨Bound.scalar (SVal.num 1), Bound.vlist [SVal.num 3, SVal.num 5],
     some "unique", some "unique", some "n1", some "n2"⟩ rfl rfl [1] [3, 5] rfl rfl
  exact ⟨r, hr, hM.mpr ⟨by decide, by decide⟩⟩
